import Mathlib

/-!
Shallow embedding of the wallet risk scoring pipeline (src/risk_scorer.py)
and proofs about its specification.

Numbers are modelled over ℝ (Python floats as reals); Python `int(x)`
(truncation toward zero) is modelled by `truncToInt`.  Dictionaries are
modelled by structures; the dictionary returned by `normalize_features`
does NOT contain an `is_active` key, which is modelled by the
`is_active : Option ℕ` field of `NormalizedDict` being set to `none`
(so `normalized.get('is_active', 1)` is `(d.is_active).getD 1`).
-/

namespace RiskScorer

/-- `Config.MAX_RETRIES` from the source. -/
def MAX_RETRIES : ℕ := 3

/-- A transaction record as consumed by `calculate_wallet_features`:
only the `to` field (possibly missing, hence `Option`) and the integer
`timeStamp` matter to the embedded code. -/
structure Tx where
  toAddr : Option String
  timeStamp : ℤ
deriving DecidableEq, Repr

/-- The `DEFI_CONTRACTS` set from the source (membership test on
lower-cased `to` addresses). -/
def DEFI_CONTRACTS : List String :=
  [ "0x7d2768de32b0b80b7a3454c06bdac94a69ddc7a9"
  , "0x3d9819210a31b4961b30ef54be2aed79b9c9cd3b"
  , "0xd9e1ce17f2641f24ae83637ab66a2cca9c378b9f"
  , "0x7a250d5630b4cf539739df2c5dacb4c659f2488d"
  , "0x1111111254fb6c44bac0bed2854e76f90643097d" ]

/-- Outcome of one attempt inside `fetch_transaction_data`:
a transport-level exception (`requests.exceptions.RequestException`),
a response whose HTTP code is not 200 or whose payload status is not
`'1'`, or a successful read carrying its result list. -/
inductive FetchOutcome where
  | transportError : FetchOutcome
  | badStatus : FetchOutcome
  | ok : List Tx → FetchOutcome
deriving DecidableEq

/-- The retry loop of `fetch_transaction_data`: walk the attempts in
order; the first `ok` returns its result immediately, any other outcome
falls through to the next attempt; exhaustion returns `[]`. -/
def fetchLoop : List FetchOutcome → List Tx
  | [] => []
  | FetchOutcome.ok r :: _ => r
  | FetchOutcome.transportError :: rest => fetchLoop rest
  | FetchOutcome.badStatus :: rest => fetchLoop rest

/-- `fetch_transaction_data`, with the environment's behaviour on the
`i`-th attempt given by `outcomes i`: the source runs
`for attempt in range(Config.MAX_RETRIES)` and returns `[]` after the loop. -/
def fetch_transaction_data (outcomes : ℕ → FetchOutcome) : List Tx :=
  fetchLoop ((List.range MAX_RETRIES).map outcomes)

/-- `RawWalletFeatures`: the dictionary built by
`calculate_wallet_features` (minus `wallet_id`).  `is_active` is the
Python int `int(tx_count > 0)`. -/
structure RawWalletFeatures where
  tx_count : ℕ
  defi_interactions : ℕ
  account_age_days : ℝ
  tx_frequency : ℝ
  balance_eth : ℝ
  is_active : ℕ

/-- `calculate_wallet_features`, with the two fetched lists and the
balance read (`none` models the `except: balance = 0` path, `some b`
a successful `get_balance` returning `b` wei) passed explicitly. -/
noncomputable def calculate_wallet_features (native_txs erc20_txs : List Tx)
    (balanceRead : Option ℤ) : RawWalletFeatures :=
  let all_txs := native_txs ++ erc20_txs
  let tx_count := all_txs.length
  let defi_interactions :=
    all_txs.countP (fun tx => DEFI_CONTRACTS.contains (tx.toAddr.getD "").toLower)
  let first_tx : ℤ := ((all_txs.head?.map Tx.timeStamp).getD 0)
  let last_tx : ℤ := ((all_txs.getLast?.map Tx.timeStamp).getD 0)
  let age_days : ℝ := if 0 < tx_count then ((last_tx : ℝ) - (first_tx : ℝ)) / 86400 else 0
  let tx_freq : ℝ := if 0 < tx_count then
    (if 0 < age_days then (tx_count : ℝ) / age_days else 0) else 0
  let balance : ℤ := balanceRead.getD 0
  { tx_count := tx_count
    defi_interactions := defi_interactions
    account_age_days := age_days
    tx_frequency := tx_freq
    balance_eth := (balance : ℝ) / 10 ^ 18
    is_active := if 0 < tx_count then 1 else 0 }

/-- The dictionary returned by `normalize_features`, together with an
optional `is_active` key so that `calculate_risk_score`'s
`normalized.get('is_active', 1)` can be modelled faithfully:
`normalize_features` never sets this key. -/
structure NormalizedDict where
  tx_volume : ℝ
  defi_usage : ℝ
  account_age : ℝ
  tx_freq : ℝ
  balance_risk : ℝ
  is_active : Option ℕ

/-- `normalize_features` from the source.  Note the returned dictionary
has NO `is_active` key (`is_active := none`). -/
noncomputable def normalize_features (f : RawWalletFeatures) : NormalizedDict :=
  { tx_volume := min (Real.log (1 + (f.tx_count : ℝ)) / 6) 1
    defi_usage := min ((f.defi_interactions : ℝ) / 15) 1
    account_age := 1 - min (f.account_age_days / 730) 1
    tx_freq := min (f.tx_frequency / 10) 1
    balance_risk := 1 - min f.balance_eth 10 / 10
    is_active := none }

/-- Python `int(x)` on a float: truncation toward zero. -/
noncomputable def truncToInt (x : ℝ) : ℤ := if 0 ≤ x then ⌊x⌋ else ⌈x⌉

/-- `calculate_risk_score` from the source: the early return fires iff
the value of the (possibly missing, default `1`) `is_active` key is
falsy, i.e. the int `0`. -/
noncomputable def calculate_risk_score (d : NormalizedDict) : ℤ :=
  if d.is_active.getD 1 = 0 then 0
  else
    let behavior_score := 0.6 * d.defi_usage + 0.4 * d.balance_risk
    let activity_score := 0.4 * d.tx_volume + 0.3 * d.tx_freq + 0.3 * d.account_age
    let risk_score := 0.6 * behavior_score + 0.4 * activity_score
    truncToInt (min (max (risk_score * 1000) 0) 1000)

/-- The composed pipeline `calculate_risk_score(normalize_features(f))`
as run by `process_wallet`. -/
noncomputable def pipelineScore (f : RawWalletFeatures) : ℤ :=
  calculate_risk_score (normalize_features f)

/-- The result record produced by `process_wallet`. -/
structure WalletResult where
  wallet_id : String
  score : ℤ
  error : Option String

/-- `process_wallet`: the body of the `try` (fetching and feature
computation, which can raise on malformed upstream data) is passed as an
`Except`: `Except.ok f` models a run where `calculate_wallet_features`
returned `f` without raising, `Except.error e` a run where some step
raised the exception message `e`. -/
noncomputable def process_wallet (wallet_address : String)
    (computation : Except String RawWalletFeatures) : WalletResult :=
  match computation with
  | Except.ok features =>
      { wallet_id := wallet_address
        score := pipelineScore features
        error := none }
  | Except.error e =>
      { wallet_id := wallet_address
        score := 0
        error := some e }

/-! ### Spec-side definitions (for refinement comparison only) -/

/-- Modelled from the spec's scoring formula (§4.4): the real-valued
risk before conversion to an integer score. -/
noncomputable def spec_risk (f : RawWalletFeatures) : ℝ :=
  let n := normalize_features f
  0.6 * (0.6 * n.defi_usage + 0.4 * n.balance_risk) +
    0.4 * (0.4 * n.tx_volume + 0.3 * n.tx_freq + 0.3 * n.account_age)

/-- Modelled from the spec's words for the claimed final score:
`round(clamp(risk*1000, 0, 1000))` to the nearest integer. -/
noncomputable def spec_score_round (f : RawWalletFeatures) : ℤ :=
  round (min (max (spec_risk f * 1000) 0) 1000)

/-! ### Helper lemmas -/

/-- The clamped risk value fed to `int()` is non-negative, so
`truncToInt` is `Int.floor` there. -/
lemma truncToInt_of_nonneg {x : ℝ} (h : 0 ≤ x) : truncToInt x = ⌊x⌋ := by
  simp [truncToInt, h]

lemma calculate_risk_score_nonneg (d : NormalizedDict) :
    0 ≤ calculate_risk_score d := by
  unfold calculate_risk_score
  split
  · exact le_refl 0
  · rw [truncToInt_of_nonneg (le_min (le_max_right _ _) (by norm_num))]
    refine Int.le_floor.mpr ?_
    push_cast
    exact le_min (le_max_right _ _) (by norm_num)

lemma calculate_risk_score_le (d : NormalizedDict) :
    calculate_risk_score d ≤ 1000 := by
  unfold calculate_risk_score
  split
  · norm_num
  · rw [truncToInt_of_nonneg (le_min (le_max_right _ _) (by norm_num))]
    have h : (min (max ((0.6 * (0.6 * d.defi_usage + 0.4 * d.balance_risk) +
        0.4 * (0.4 * d.tx_volume + 0.3 * d.tx_freq + 0.3 * d.account_age)) * 1000) 0) 1000 : ℝ)
        ≤ 1000 := min_le_right _ _
    calc ⌊min (max ((0.6 * (0.6 * d.defi_usage + 0.4 * d.balance_risk) +
          0.4 * (0.4 * d.tx_volume + 0.3 * d.tx_freq + 0.3 * d.account_age)) * 1000) 0) 1000⌋
        ≤ ⌊(1000 : ℝ)⌋ := Int.floor_le_floor h
      _ = 1000 := by norm_num

/-! ### Claims -/

/-- C2: For every RawWalletFeatures record (any real-valued features,
including extreme or out-of-range values), the score returned by
`calculate_risk_score` applied to its normalized features is an integer
in the closed interval [0, 1000]. -/
theorem pipelineScore_mem_Icc (f : RawWalletFeatures) :
    0 ≤ pipelineScore f ∧ pipelineScore f ≤ 1000 :=
  ⟨calculate_risk_score_nonneg _, calculate_risk_score_le _⟩

/-- C9: the features produced by the collector satisfy
`defi_interactions ≤ tx_count`, for every pair of fetched lists and any
balance read outcome. -/
theorem defi_interactions_le_tx_count (native_txs erc20_txs : List Tx)
    (balanceRead : Option ℤ) :
    (calculate_wallet_features native_txs erc20_txs balanceRead).defi_interactions ≤
      (calculate_wallet_features native_txs erc20_txs balanceRead).tx_count := by
  simpa [calculate_wallet_features] using
    List.countP_le_length (l := native_txs ++ erc20_txs)
      (p := fun tx => DEFI_CONTRACTS.contains (tx.toAddr.getD "").toLower)

/-- C5: for every RawWalletFeatures record whose raw fields are all
non-negative (the ℕ fields `tx_count`, `defi_interactions` are
non-negative by type, including extreme values such as 10_000_000), each
of the five values produced by `normalize_features` lies in [0, 1]. -/
theorem normalize_features_mem_Icc (f : RawWalletFeatures)
    (hage : 0 ≤ f.account_age_days) (hfreq : 0 ≤ f.tx_frequency)
    (hbal : 0 ≤ f.balance_eth) :
    (0 ≤ (normalize_features f).tx_volume ∧ (normalize_features f).tx_volume ≤ 1) ∧
    (0 ≤ (normalize_features f).defi_usage ∧ (normalize_features f).defi_usage ≤ 1) ∧
    (0 ≤ (normalize_features f).account_age ∧ (normalize_features f).account_age ≤ 1) ∧
    (0 ≤ (normalize_features f).tx_freq ∧ (normalize_features f).tx_freq ≤ 1) ∧
    (0 ≤ (normalize_features f).balance_risk ∧ (normalize_features f).balance_risk ≤ 1) := by
  unfold normalize_features
  refine ⟨⟨?_, min_le_right _ _⟩, ⟨?_, min_le_right _ _⟩, ⟨?_, ?_⟩,
    ⟨?_, min_le_right _ _⟩, ⟨?_, ?_⟩⟩
  · refine le_min (div_nonneg (Real.log_nonneg ?_) (by norm_num)) zero_le_one
    simp
  · exact le_min (by positivity) zero_le_one
  · exact sub_nonneg.mpr (min_le_right _ _)
  · have h : (0:ℝ) ≤ min (f.account_age_days / 730) 1 := le_min (by positivity) zero_le_one
    linarith
  · exact le_min (by positivity) zero_le_one
  · have h : min f.balance_eth 10 / 10 ≤ 1 := by
      rw [div_le_one (by norm_num)]
      exact min_le_right _ _
    linarith
  · have h : (0:ℝ) ≤ min f.balance_eth 10 / 10 := div_nonneg (le_min hbal (by norm_num)) (by norm_num)
    linarith

theorem normalize_features_mem_Icc_witness :
    (0:ℝ) ≤ 5 ∧ (0:ℝ) ≤ 2 ∧ (0:ℝ) ≤ 3 ∧
    ((0 ≤ (normalize_features ⟨10000000, 4, 5, 2, 3, 1⟩).tx_volume ∧
        (normalize_features ⟨10000000, 4, 5, 2, 3, 1⟩).tx_volume ≤ 1) ∧
      (0 ≤ (normalize_features ⟨10000000, 4, 5, 2, 3, 1⟩).defi_usage ∧
        (normalize_features ⟨10000000, 4, 5, 2, 3, 1⟩).defi_usage ≤ 1) ∧
      (0 ≤ (normalize_features ⟨10000000, 4, 5, 2, 3, 1⟩).account_age ∧
        (normalize_features ⟨10000000, 4, 5, 2, 3, 1⟩).account_age ≤ 1) ∧
      (0 ≤ (normalize_features ⟨10000000, 4, 5, 2, 3, 1⟩).tx_freq ∧
        (normalize_features ⟨10000000, 4, 5, 2, 3, 1⟩).tx_freq ≤ 1) ∧
      (0 ≤ (normalize_features ⟨10000000, 4, 5, 2, 3, 1⟩).balance_risk ∧
        (normalize_features ⟨10000000, 4, 5, 2, 3, 1⟩).balance_risk ≤ 1)) :=
  ⟨by norm_num, by norm_num, by norm_num,
    normalize_features_mem_Icc ⟨10000000, 4, 5, 2, 3, 1⟩
      (by norm_num) (by norm_num) (by norm_num)⟩

/-- C10: the composed map `calculate_risk_score(normalize_features(f))`
is independent of the `is_active` field: two records agreeing on every
other field get equal scores (`normalize_features` drops `is_active`,
and the missing key defaults to active in `calculate_risk_score`). -/
theorem pipelineScore_ignores_is_active (f : RawWalletFeatures) (a b : ℕ) :
    pipelineScore { f with is_active := a } = pipelineScore { f with is_active := b } := rfl

/-- C8: `process_wallet` never propagates an exception: the returned
record has `error` set iff the wallet's computation raised, and then
score 0; otherwise `error` is absent and the record carries the
computed score. -/
theorem process_wallet_isolates_failures (addr : String)
    (comp : Except String RawWalletFeatures) :
    ((process_wallet addr comp).error = none ↔ ∃ f, comp = Except.ok f) ∧
    (∀ e, comp = Except.error e →
      (process_wallet addr comp).score = 0 ∧ (process_wallet addr comp).error = some e) ∧
    (∀ f, comp = Except.ok f →
      (process_wallet addr comp).score = pipelineScore f ∧
        (process_wallet addr comp).error = none) := by
  cases comp with
  | ok f => simp [process_wallet]
  | error e => simp [process_wallet]

theorem process_wallet_isolates_failures_witness :
    (process_wallet "0xabc" (Except.error "boom")).score = 0 ∧
    (process_wallet "0xabc" (Except.error "boom")).error = some "boom" :=
  (process_wallet_isolates_failures "0xabc" (Except.error "boom")).2.1 "boom" rfl

/-- C4: `fetch_transaction_data` consults at most `MAX_RETRIES = 3`
attempts (its result depends only on the first 3 outcomes); the first
successful attempt's result (possibly empty) is returned immediately; in
particular two failures followed by a success yield the third attempt's
result; and when all 3 attempts fail it returns `[]` (no error). -/
theorem fetch_transaction_data_retry (outcomes : ℕ → FetchOutcome) :
    (∀ o2 : ℕ → FetchOutcome, (∀ i, i < MAX_RETRIES → outcomes i = o2 i) →
      fetch_transaction_data outcomes = fetch_transaction_data o2) ∧
    (∀ i r, i < MAX_RETRIES → outcomes i = FetchOutcome.ok r →
      (∀ j, j < i → ∀ s, outcomes j ≠ FetchOutcome.ok s) →
      fetch_transaction_data outcomes = r) ∧
    (∀ r, (∀ s, outcomes 0 ≠ FetchOutcome.ok s) → (∀ s, outcomes 1 ≠ FetchOutcome.ok s) →
      outcomes 2 = FetchOutcome.ok r → fetch_transaction_data outcomes = r) ∧
    ((∀ i, i < MAX_RETRIES → ∀ s, outcomes i ≠ FetchOutcome.ok s) →
      fetch_transaction_data outcomes = []) := by
  have hexp : ∀ g : ℕ → FetchOutcome,
      fetch_transaction_data g = fetchLoop [g 0, g 1, g 2] := by
    intro g
    rfl
  have hfirst : ∀ i r, i < MAX_RETRIES → outcomes i = FetchOutcome.ok r →
      (∀ j, j < i → ∀ s, outcomes j ≠ FetchOutcome.ok s) →
      fetch_transaction_data outcomes = r := by
    intro i r hi hok hprev
    rw [hexp]
    have hi3 : i < 3 := hi
    interval_cases i
    · rw [hok]
      rfl
    · cases h0 : outcomes 0 with
      | ok s => exact absurd h0 (hprev 0 (by decide) s)
      | transportError => rw [hok]; rfl
      | badStatus => rw [hok]; rfl
    · cases h0 : outcomes 0 with
      | ok s => exact absurd h0 (hprev 0 (by decide) s)
      | transportError =>
        cases h1 : outcomes 1 with
        | ok s => exact absurd h1 (hprev 1 (by decide) s)
        | transportError => rw [hok]; rfl
        | badStatus => rw [hok]; rfl
      | badStatus =>
        cases h1 : outcomes 1 with
        | ok s => exact absurd h1 (hprev 1 (by decide) s)
        | transportError => rw [hok]; rfl
        | badStatus => rw [hok]; rfl
  refine ⟨?_, hfirst, ?_, ?_⟩
  · intro o2 hagree
    rw [hexp, hexp, hagree 0 (by decide), hagree 1 (by decide), hagree 2 (by decide)]
  · intro r h0 h1 h2
    refine hfirst 2 r (by decide) h2 ?_
    intro j hj s
    interval_cases j
    · exact h0 s
    · exact h1 s
  · intro hallfail
    rw [hexp]
    cases h0 : outcomes 0 with
    | ok s => exact absurd h0 (hallfail 0 (by decide) s)
    | transportError =>
      cases h1 : outcomes 1 with
      | ok s => exact absurd h1 (hallfail 1 (by decide) s)
      | transportError =>
        cases h2 : outcomes 2 with
        | ok s => exact absurd h2 (hallfail 2 (by decide) s)
        | transportError => rfl
        | badStatus => rfl
      | badStatus =>
        cases h2 : outcomes 2 with
        | ok s => exact absurd h2 (hallfail 2 (by decide) s)
        | transportError => rfl
        | badStatus => rfl
    | badStatus =>
      cases h1 : outcomes 1 with
      | ok s => exact absurd h1 (hallfail 1 (by decide) s)
      | transportError =>
        cases h2 : outcomes 2 with
        | ok s => exact absurd h2 (hallfail 2 (by decide) s)
        | transportError => rfl
        | badStatus => rfl
      | badStatus =>
        cases h2 : outcomes 2 with
        | ok s => exact absurd h2 (hallfail 2 (by decide) s)
        | transportError => rfl
        | badStatus => rfl

/-- A source that fails on the first two attempts and succeeds on the
third, used to witness the retry-boundary conjunct of C4. -/
def failFailOk : ℕ → FetchOutcome :=
  fun n => if n = 2 then FetchOutcome.ok [⟨some "0xdef", 42⟩] else FetchOutcome.badStatus

theorem fetch_transaction_data_retry_witness :
    fetch_transaction_data failFailOk = [⟨some "0xdef", 42⟩] :=
  (fetch_transaction_data_retry failFailOk).2.2.1 [⟨some "0xdef", 42⟩]
    (fun s h => by simp [failFailOk] at h)
    (fun s h => by simp [failFailOk] at h)
    (by simp [failFailOk])

/-- Closed form of `calculate_risk_score` (the `let` bindings expanded). -/
lemma calculate_risk_score_eq (d : NormalizedDict) :
    calculate_risk_score d =
      if d.is_active.getD 1 = 0 then 0
      else truncToInt (min (max ((0.6 * (0.6 * d.defi_usage + 0.4 * d.balance_risk) +
        0.4 * (0.4 * d.tx_volume + 0.3 * d.tx_freq + 0.3 * d.account_age)) * 1000) 0) 1000) :=
  rfl

/-- `calculate_risk_score` is monotone in each of the five normalized
features (all weights are positive) when the `is_active` entries agree. -/
lemma calculate_risk_score_mono {d1 d2 : NormalizedDict}
    (hact : d1.is_active = d2.is_active)
    (h1 : d1.tx_volume ≤ d2.tx_volume) (h2 : d1.defi_usage ≤ d2.defi_usage)
    (h3 : d1.account_age ≤ d2.account_age) (h4 : d1.tx_freq ≤ d2.tx_freq)
    (h5 : d1.balance_risk ≤ d2.balance_risk) :
    calculate_risk_score d1 ≤ calculate_risk_score d2 := by
  rw [calculate_risk_score_eq, calculate_risk_score_eq, hact]
  by_cases hc : d2.is_active.getD 1 = 0
  · rw [if_pos hc, if_pos hc]
  · rw [if_neg hc, if_neg hc,
      truncToInt_of_nonneg (le_min (le_max_right _ _) (by norm_num)),
      truncToInt_of_nonneg (le_min (le_max_right _ _) (by norm_num))]
    apply Int.floor_le_floor
    refine min_le_min (max_le_max ?_ le_rfl) le_rfl
    have hrisk : 0.6 * (0.6 * d1.defi_usage + 0.4 * d1.balance_risk) +
        0.4 * (0.4 * d1.tx_volume + 0.3 * d1.tx_freq + 0.3 * d1.account_age) ≤
        0.6 * (0.6 * d2.defi_usage + 0.4 * d2.balance_risk) +
        0.4 * (0.4 * d2.tx_volume + 0.3 * d2.tx_freq + 0.3 * d2.account_age) := by
      linarith
    exact mul_le_mul_of_nonneg_right hrisk (by norm_num)

/-- C7: for the composed map from raw features to score, holding all
other raw features fixed: increasing `defi_interactions` up to the
saturation point 15 never decreases the score; increasing
`account_age_days` never increases the score; increasing `balance_eth`
up to 10 never increases the score. -/
theorem pipelineScore_monotonic :
    (∀ (f : RawWalletFeatures) (d1 d2 : ℕ), d1 ≤ d2 → d2 ≤ 15 →
      pipelineScore { f with defi_interactions := d1 } ≤
        pipelineScore { f with defi_interactions := d2 }) ∧
    (∀ (f : RawWalletFeatures) (a1 a2 : ℝ), a1 ≤ a2 →
      pipelineScore { f with account_age_days := a2 } ≤
        pipelineScore { f with account_age_days := a1 }) ∧
    (∀ (f : RawWalletFeatures) (b1 b2 : ℝ), b1 ≤ b2 → b2 ≤ 10 →
      pipelineScore { f with balance_eth := b2 } ≤
        pipelineScore { f with balance_eth := b1 }) := by
  refine ⟨?_, ?_, ?_⟩
  · intro f d1 d2 hd _h15
    refine calculate_risk_score_mono rfl le_rfl ?_ le_rfl le_rfl le_rfl
    refine min_le_min ?_ le_rfl
    exact (div_le_div_iff_of_pos_right (by norm_num)).mpr (by exact_mod_cast hd)
  · intro f a1 a2 ha
    refine calculate_risk_score_mono rfl le_rfl le_rfl ?_ le_rfl le_rfl
    refine sub_le_sub_left ?_ 1
    refine min_le_min ?_ le_rfl
    exact (div_le_div_iff_of_pos_right (by norm_num)).mpr ha
  · intro f b1 b2 hb _h10
    refine calculate_risk_score_mono rfl le_rfl le_rfl le_rfl le_rfl ?_
    refine sub_le_sub_left ?_ 1
    exact (div_le_div_iff_of_pos_right (by norm_num)).mpr (min_le_min hb le_rfl)

theorem pipelineScore_monotonic_witness :
    ((2:ℕ) ≤ 5 ∧ (5:ℕ) ≤ 15 ∧
      pipelineScore { (⟨7, 0, 50, 3, 1, 1⟩ : RawWalletFeatures) with defi_interactions := 2 } ≤
        pipelineScore { (⟨7, 0, 50, 3, 1, 1⟩ : RawWalletFeatures) with defi_interactions := 5 }) ∧
    ((10:ℝ) ≤ 20 ∧
      pipelineScore { (⟨7, 0, 50, 3, 1, 1⟩ : RawWalletFeatures) with account_age_days := 20 } ≤
        pipelineScore { (⟨7, 0, 50, 3, 1, 1⟩ : RawWalletFeatures) with account_age_days := 10 }) ∧
    ((1:ℝ) ≤ 4 ∧ (4:ℝ) ≤ 10 ∧
      pipelineScore { (⟨7, 0, 50, 3, 1, 1⟩ : RawWalletFeatures) with balance_eth := 4 } ≤
        pipelineScore { (⟨7, 0, 50, 3, 1, 1⟩ : RawWalletFeatures) with balance_eth := 1 }) :=
  ⟨⟨by norm_num, by norm_num, pipelineScore_monotonic.1 _ 2 5 (by norm_num) (by norm_num)⟩,
   ⟨by norm_num, pipelineScore_monotonic.2.1 _ 10 20 (by norm_num)⟩,
   ⟨by norm_num, by norm_num, pipelineScore_monotonic.2.2 _ 1 4 (by norm_num) (by norm_num)⟩⟩

/-- C6 (amended): for every active record the composed score equals the
truncation toward zero of `clamp(risk*1000, 0, 1000)` with `risk` per the
spec's weighted formula — the source converts with `int()` (truncation),
not round-to-nearest. -/
theorem pipelineScore_eq_trunc_clamp (f : RawWalletFeatures) (_hactive : f.is_active ≠ 0) :
    pipelineScore f = truncToInt (min (max (spec_risk f * 1000) 0) 1000) := rfl

theorem pipelineScore_eq_trunc_clamp_witness :
    ((⟨5, 0, 0, 0, 0, 1⟩ : RawWalletFeatures).is_active ≠ 0) ∧
    pipelineScore ⟨5, 0, 0, 0, 0, 1⟩ =
      truncToInt (min (max (spec_risk ⟨5, 0, 0, 0, 0, 1⟩ * 1000) 0) 1000) :=
  ⟨by decide, pipelineScore_eq_trunc_clamp ⟨5, 0, 0, 0, 0, 1⟩ (by decide)⟩

/-- `log 1001 ≥ 6`, i.e. `e^6 ≤ 1001`: makes `tx_volume` saturate at 1
for `tx_count = 1000`. -/
lemma six_le_log_1001 : (6:ℝ) ≤ Real.log 1001 := by
  rw [Real.le_log_iff_exp_le (by norm_num)]
  have h1 : Real.exp 1 ^ (6:ℕ) = Real.exp ((6:ℕ):ℝ) := Real.exp_one_pow 6
  have h2 : Real.exp 1 ^ (6:ℕ) ≤ (2.7182818286:ℝ) ^ (6:ℕ) :=
    pow_le_pow_left₀ (le_of_lt (Real.exp_pos 1)) (le_of_lt Real.exp_one_lt_d9) 6
  have h3 : (2.7182818286:ℝ) ^ (6:ℕ) ≤ 1001 := by norm_num
  calc Real.exp (6:ℝ) = Real.exp ((6:ℕ):ℝ) := by norm_num
    _ = Real.exp 1 ^ (6:ℕ) := h1.symm
    _ ≤ (2.7182818286:ℝ) ^ (6:ℕ) := h2
    _ ≤ 1001 := h3

/-- C6 counterexample: at the active record `tx_count=1000`,
`defi_interactions=0`, `account_age_days=730`, `tx_frequency=1/24`,
`balance=0`, the clamped risk is exactly 400.5, which the code truncates
to 400 while the claimed round-to-nearest gives 401. -/
theorem pipelineScore_ne_round_counterexample :
    (⟨1000, 0, 730, 1/24, 0, 1⟩ : RawWalletFeatures).is_active ≠ 0 ∧
    pipelineScore ⟨1000, 0, 730, 1/24, 0, 1⟩ ≠
      spec_score_round ⟨1000, 0, 730, 1/24, 0, 1⟩ := by
  have hvol : (normalize_features ⟨1000, 0, 730, 1/24, 0, 1⟩).tx_volume = 1 := by
    show min (Real.log (1 + ((1000:ℕ):ℝ)) / 6) 1 = 1
    rw [show (1 + ((1000:ℕ):ℝ)) = 1001 by norm_num, min_eq_right]
    rw [le_div_iff₀ (by norm_num)]
    linarith [six_le_log_1001]
  have husage : (normalize_features ⟨1000, 0, 730, 1/24, 0, 1⟩).defi_usage = 0 := by
    show min (((0:ℕ):ℝ) / 15) 1 = 0
    rw [show ((0:ℕ):ℝ) / 15 = 0 by norm_num, min_eq_left (by norm_num : (0:ℝ) ≤ 1)]
  have hage : (normalize_features ⟨1000, 0, 730, 1/24, 0, 1⟩).account_age = 0 := by
    show 1 - min ((730:ℝ) / 730) 1 = 0
    rw [show (730:ℝ) / 730 = 1 by norm_num, min_self]
    norm_num
  have hfreq : (normalize_features ⟨1000, 0, 730, 1/24, 0, 1⟩).tx_freq = 1/240 := by
    show min (((1:ℝ)/24) / 10) 1 = 1/240
    rw [show ((1:ℝ)/24) / 10 = 1/240 by norm_num, min_eq_left (by norm_num : (1:ℝ)/240 ≤ 1)]
  have hbal : (normalize_features ⟨1000, 0, 730, 1/24, 0, 1⟩).balance_risk = 1 := by
    show 1 - min (0:ℝ) 10 / 10 = 1
    rw [min_eq_left (by norm_num : (0:ℝ) ≤ 10)]
    norm_num
  have hact : (normalize_features ⟨1000, 0, 730, 1/24, 0, 1⟩).is_active = none := rfl
  have hclamp : min (max ((0.6 * (0.6 * (0:ℝ) + 0.4 * 1) +
      0.4 * (0.4 * 1 + 0.3 * (1/240) + 0.3 * 0)) * 1000) 0) 1000 = 400.5 := by
    rw [show (0.6 * (0.6 * (0:ℝ) + 0.4 * 1) +
      0.4 * (0.4 * 1 + 0.3 * (1/240) + 0.3 * 0)) * 1000 = 400.5 by norm_num]
    rw [max_eq_left (by norm_num : (0:ℝ) ≤ 400.5), min_eq_left (by norm_num : (400.5:ℝ) ≤ 1000)]
  have hscore : pipelineScore ⟨1000, 0, 730, 1/24, 0, 1⟩ = 400 := by
    unfold pipelineScore
    rw [calculate_risk_score_eq, hact, Option.getD_none, if_neg (by norm_num : ¬(1:ℕ) = 0),
      hvol, husage, hage, hfreq, hbal, hclamp,
      truncToInt_of_nonneg (by norm_num : (0:ℝ) ≤ 400.5), Int.floor_eq_iff]
    constructor <;> norm_num
  have hrisk : spec_risk ⟨1000, 0, 730, 1/24, 0, 1⟩ =
      0.6 * (0.6 * (0:ℝ) + 0.4 * 1) + 0.4 * (0.4 * 1 + 0.3 * (1/240) + 0.3 * 0) := by
    show 0.6 * (0.6 * (normalize_features ⟨1000, 0, 730, 1/24, 0, 1⟩).defi_usage +
        0.4 * (normalize_features ⟨1000, 0, 730, 1/24, 0, 1⟩).balance_risk) +
      0.4 * (0.4 * (normalize_features ⟨1000, 0, 730, 1/24, 0, 1⟩).tx_volume +
        0.3 * (normalize_features ⟨1000, 0, 730, 1/24, 0, 1⟩).tx_freq +
        0.3 * (normalize_features ⟨1000, 0, 730, 1/24, 0, 1⟩).account_age) = _
    rw [hvol, husage, hage, hfreq, hbal]
  have hspec : spec_score_round ⟨1000, 0, 730, 1/24, 0, 1⟩ = 401 := by
    unfold spec_score_round
    rw [hrisk, hclamp, round_eq,
      show (400.5:ℝ) + 1/2 = 401 by norm_num, Int.floor_eq_iff]
    constructor <;> norm_num
  refine ⟨by decide, ?_⟩
  rw [hscore, hspec]
  norm_num

/-- C1 (code evaluated at the failing input): for the all-zero record —
`tx_count = 0`, hence `is_active = 0` — the composed pipeline
`calculate_risk_score(normalize_features(f))` returns 360, not the
claimed 0: `normalize_features` drops the `is_active` key and the
missing key defaults to active in `calculate_risk_score`, so the
`return 0  # Inactive wallet` branch never fires. -/
theorem pipelineScore_inactive_record_eq_360 :
    (⟨0, 0, 0, 0, 0, 0⟩ : RawWalletFeatures).is_active = 0 ∧
    pipelineScore ⟨0, 0, 0, 0, 0, 0⟩ = 360 := by
  have hvol : (normalize_features ⟨0, 0, 0, 0, 0, 0⟩).tx_volume = 0 := by
    show min (Real.log (1 + ((0:ℕ):ℝ)) / 6) 1 = 0
    rw [show (1 + ((0:ℕ):ℝ)) = 1 by norm_num, Real.log_one,
      show (0:ℝ) / 6 = 0 by norm_num, min_eq_left (by norm_num : (0:ℝ) ≤ 1)]
  have husage : (normalize_features ⟨0, 0, 0, 0, 0, 0⟩).defi_usage = 0 := by
    show min (((0:ℕ):ℝ) / 15) 1 = 0
    rw [show ((0:ℕ):ℝ) / 15 = 0 by norm_num, min_eq_left (by norm_num : (0:ℝ) ≤ 1)]
  have hage : (normalize_features ⟨0, 0, 0, 0, 0, 0⟩).account_age = 1 := by
    show 1 - min ((0:ℝ) / 730) 1 = 1
    rw [show (0:ℝ) / 730 = 0 by norm_num, min_eq_left (by norm_num : (0:ℝ) ≤ 1)]
    norm_num
  have hfreq : (normalize_features ⟨0, 0, 0, 0, 0, 0⟩).tx_freq = 0 := by
    show min ((0:ℝ) / 10) 1 = 0
    rw [show (0:ℝ) / 10 = 0 by norm_num, min_eq_left (by norm_num : (0:ℝ) ≤ 1)]
  have hbal : (normalize_features ⟨0, 0, 0, 0, 0, 0⟩).balance_risk = 1 := by
    show 1 - min (0:ℝ) 10 / 10 = 1
    rw [min_eq_left (by norm_num : (0:ℝ) ≤ 10)]
    norm_num
  have hact : (normalize_features ⟨0, 0, 0, 0, 0, 0⟩).is_active = none := rfl
  refine ⟨rfl, ?_⟩
  unfold pipelineScore
  rw [calculate_risk_score_eq, hact, Option.getD_none, if_neg (by norm_num : ¬(1:ℕ) = 0),
    hvol, husage, hage, hfreq, hbal]
  rw [show (0.6 * (0.6 * (0:ℝ) + 0.4 * 1) + 0.4 * (0.4 * 0 + 0.3 * 0 + 0.3 * 1)) * 1000
      = 360 by norm_num]
  rw [max_eq_left (by norm_num : (0:ℝ) ≤ 360), min_eq_left (by norm_num : (360:ℝ) ≤ 1000)]
  rw [truncToInt_of_nonneg (by norm_num : (0:ℝ) ≤ 360), Int.floor_eq_iff]
  constructor <;> norm_num

/-- C3 (code evaluated at the failing input): with the individually
sorted fetched lists native=[timeStamp 100000] and token=[timeStamp 0],
the collector computes a negative `account_age_days`
(`(0 - 100000)/86400`), not the claimed non-negative elapsed time
between earliest and latest observed timestamps (`100000/86400`): the
concatenated list is not sorted before taking first/last. -/
theorem account_age_days_negative_on_sorted_inputs :
    (calculate_wallet_features [⟨none, 100000⟩] [⟨none, 0⟩] none).account_age_days
        = ((0:ℝ) - 100000) / 86400 ∧
    (calculate_wallet_features [⟨none, 100000⟩] [⟨none, 0⟩] none).account_age_days < 0 := by
  have h : (calculate_wallet_features [⟨none, 100000⟩] [⟨none, 0⟩] none).account_age_days
      = ((0:ℝ) - 100000) / 86400 := by
    simp [calculate_wallet_features]
  refine ⟨h, ?_⟩
  rw [h]
  norm_num

end RiskScorer
